import Mathlib

set_option maxHeartbeats 1000000

/-!
Shallow embedding of the standalone MCP server (`server_standalone.py`):
the JSON value model, the tool/resource registries, schema synthesis,
the request dispatcher and the stdio transport loop.
-/

/-- JSON values as decoded by `json.loads` (numbers restricted to integers;
no claim under consideration depends on non-integral numerics). Objects keep
key insertion order, matching Python dicts. -/
inductive Json where
  | null
  | bool (b : Bool)
  | num (n : Int)
  | str (s : String)
  | arr (xs : List Json)
  | obj (kvs : List (String × Json))
deriving Inhabited

mutual
/-- Embedding of `json.dumps` on decoded values (whitespace/indentation of
`indent=2` abstracted away; the structure of the serialization is kept). -/
def json_dumps : Json → String
  | .null => "null"
  | .bool true => "true"
  | .bool false => "false"
  | .num n => toString n
  | .str s => "\"" ++ s ++ "\""
  | .arr xs => "[" ++ json_dumps_list xs ++ "]"
  | .obj kvs => "\x7b" ++ json_dumps_obj kvs ++ "\x7d"

def json_dumps_list : List Json → String
  | [] => ""
  | [x] => json_dumps x
  | x :: xs => json_dumps x ++ ", " ++ json_dumps_list xs

def json_dumps_obj : List (String × Json) → String
  | [] => ""
  | [(k, v)] => "\"" ++ k ++ "\": " ++ json_dumps v
  | (k, v) :: kvs => "\"" ++ k ++ "\": " ++ json_dumps v ++ ", " ++ json_dumps_obj kvs
end

example : json_dumps (.arr [.num 1, .str "a"]) = "[1, \"a\"]" := rfl

mutual
/-- Python `repr` of a decoded JSON value (`str` on containers delegates to
`repr` of the elements; strings are rendered with single quotes). -/
def pyRepr : Json → String
  | .null => "None"
  | .bool true => "True"
  | .bool false => "False"
  | .num n => toString n
  | .str s => "'" ++ s ++ "'"
  | .arr xs => "[" ++ pyReprList xs ++ "]"
  | .obj kvs => "\x7b" ++ pyReprObj kvs ++ "\x7d"

def pyReprList : List Json → String
  | [] => ""
  | [x] => pyRepr x
  | x :: xs => pyRepr x ++ ", " ++ pyReprList xs

def pyReprObj : List (String × Json) → String
  | [] => ""
  | [(k, v)] => "'" ++ k ++ "': " ++ pyRepr v
  | (k, v) :: kvs => "'" ++ k ++ "': " ++ pyRepr v ++ ", " ++ pyReprObj kvs
end

/-- Python `str` of a decoded JSON value, as used by f-string interpolation. -/
def pyStr : Json → String
  | .null => "None"
  | .bool true => "True"
  | .bool false => "False"
  | .num n => toString n
  | .str s => s
  | .arr xs => pyRepr (.arr xs)
  | .obj kvs => pyRepr (.obj kvs)

/-! ### Python dict model (insertion-ordered association lists) -/

/-- Python dict assignment `d[k] = v`: updates in place when the key exists
(keeping its position), otherwise appends. -/
def dictInsert (k : String) (v : α) : List (String × α) → List (String × α)
  | [] => [(k, v)]
  | (k', v') :: rest => if k' = k then (k, v) :: rest else (k', v') :: dictInsert k v rest

/-- Lookup of a string key in a dict (first occurrence). -/
def dictLookup (d : List (String × α)) (k : String) : Option α :=
  match d with
  | [] => none
  | (k', v) :: rest => if k' = k then some v else dictLookup rest k

/-- The keys of a dict, in insertion order. -/
def dictKeys (d : List (String × α)) : List String := d.map (·.1)

/-- Python `d.get(k, dflt)` on a dict with string keys. -/
def pyGetD (d : List (String × Json)) (k : String) (dflt : Json) : Json :=
  (dictLookup d k).getD dflt

/-- Python `d.get(k)` (default `None`). -/
def pyGet (d : List (String × Json)) (k : String) : Json := pyGetD d k .null

/-- Python `x.get(k, dflt)` on an arbitrary decoded value: non-dicts raise
`AttributeError`. Exceptions are carried as their `str()` rendering. -/
def jsonGetAttrGet (j : Json) (k : String) (dflt : Json) : Except String Json :=
  match j with
  | .obj kvs => .ok (pyGetD kvs k dflt)
  | .null => .error "'NoneType' object has no attribute 'get'"
  | .bool _ => .error "'bool' object has no attribute 'get'"
  | .num _ => .error "'int' object has no attribute 'get'"
  | .str _ => .error "'str' object has no attribute 'get'"
  | .arr _ => .error "'list' object has no attribute 'get'"

/-- Python `k not in d` for a dict with string keys: lists and dicts are
unhashable and raise `TypeError`; any other decoded value is hashable, and
only strings can equal a string key. -/
def pyNotIn (keys : List String) (k : Json) : Except String Bool :=
  match k with
  | .arr _ => .error "unhashable type: 'list'"
  | .obj _ => .error "unhashable type: 'dict'"
  | .str s => .ok (!(keys.contains s))
  | _ => .ok true

/-- Python `d[k]` for a dict with string keys and an arbitrary decoded key:
unhashable keys raise `TypeError`, missing keys raise `KeyError` (whose
`str()` is the `repr` of the key). -/
def pyDictIndex (d : List (String × α)) (k : Json) : Except String α :=
  match k with
  | .arr _ => .error "unhashable type: 'list'"
  | .obj _ => .error "unhashable type: 'dict'"
  | .str s =>
    match dictLookup d s with
    | some v => .ok v
    | none => .error ("'" ++ s ++ "'")
  | other => .error (pyStr other)

/-! ### Schema synthesis (`_get_schema`, `_python_type_to_json_type`) -/

/-- Unparameterized Python type objects appearing as annotations. -/
inductive PyBase where
  | pint
  | pfloat
  | pstr
  | pbool
  | plist
  | pdict
  | pother (nm : String)
deriving DecidableEq

/-- A parameter annotation: a plain type, a parameterized generic whose
`__origin__` is the outer container, or a plain string standing in for an
absent annotation (the source substitutes the string `"string"`). -/
inductive PyAnnot where
  | simple (b : PyBase)
  | generic (origin : PyBase) (args : List PyBase)
  | strLit (s : String)
deriving DecidableEq

/-- The `type_map` dict of `_python_type_to_json_type`; `none` models a type
object absent from the dict. -/
def type_map : PyBase → Option String
  | .pint => some "integer"
  | .pfloat => some "number"
  | .pstr => some "string"
  | .pbool => some "boolean"
  | .plist => some "array"
  | .pdict => some "object"
  | .pother _ => none

/-- Embedding of `_python_type_to_json_type`: a value with `__origin__`
resolves via the origin; otherwise `type_map.get(python_type, "string")`
(a string key is never in the map, so it falls to the default). -/
def _python_type_to_json_type : PyAnnot → String
  | .generic origin _ => (type_map origin).getD "string"
  | .simple b => (type_map b).getD "string"
  | .strLit _ => "string"

/-- One declared parameter of a handler signature: its name, its declared
annotation when present, and its default value when present. -/
structure Param where
  nm : String
  annot : Option PyAnnot
  dflt : Option Json

/-- The per-parameter type computation of `_get_schema` (line 49): an absent
annotation is replaced by the string `"string"` before conversion. -/
def paramJsonType (a : Option PyAnnot) : String :=
  _python_type_to_json_type (a.getD (.strLit "string"))

/-- The loop body of `_get_schema`: accumulates `properties` (insertion
order) and `required` (parameters lacking a default), skipping `self`. -/
def schemaFields : List Param → List (String × Json) × List String
  | [] => ([], [])
  | p :: rest =>
    let pr := schemaFields rest
    if p.nm = "self" then pr
    else
      ((p.nm, Json.obj [("type", Json.str (paramJsonType p.annot))]) :: pr.1,
       if p.dflt.isNone then p.nm :: pr.2 else pr.2)

/-- Embedding of `_get_schema`. -/
def _get_schema (sig : List Param) : Json :=
  Json.obj [("type", .str "object"),
            ("properties", .obj (schemaFields sig).1),
            ("required", .arr ((schemaFields sig).2.map Json.str))]


/-! ### The server state and registration (`__init__`, `tool`, `resource`) -/

/-- A Python function being registered as a tool: its `__name__`, its
`__doc__`, its declared signature, and its behavior. The behavior receives
the raw `arguments` value of the call (the `**arguments` expansion) and
either returns a JSON-serializable value or raises (carried as `str(e)`);
a failure of `**`-expansion or of argument binding is one of its raises. -/
structure PyFunc where
  nm : String
  doc : Option String
  sig : List Param
  impl : Json → Except String Json

/-- A registered resource handler: zero arguments, textual content, may
raise (carried as `str(e)`). -/
def ResourceFunc := Unit → Except String String

/-- The `MCPServer` state: `tools` maps a tool name to its descriptor dict,
`tool_functions` to the callable itself, `resources` maps a URI to its
zero-argument handler. -/
structure MCPServer where
  nm : String
  tools : List (String × Json)
  tool_functions : List (String × (Json → Except String Json))
  resources : List (String × ResourceFunc)

/-- `MCPServer.__init__`: empty registries. -/
def MCPServer.new (nm : String) : MCPServer := ⟨nm, [], [], []⟩

/-- The ToolDescriptor built by the `tool` decorator:
`{name, description (doc or ""), inputSchema}`. -/
def toolDescriptor (f : PyFunc) : Json :=
  .obj [("name", .str f.nm),
        ("description", .str (f.doc.getD "")),
        ("inputSchema", _get_schema f.sig)]

/-- The `tool` decorator: stores the descriptor and the callable under
`__name__` in the two dicts. -/
def MCPServer.tool (s : MCPServer) (f : PyFunc) : MCPServer :=
  { s with
    tools := dictInsert f.nm (toolDescriptor f) s.tools,
    tool_functions := dictInsert f.nm f.impl s.tool_functions }

/-- The `resource(uri)` decorator: stores the handler under the URI. -/
def MCPServer.resource (s : MCPServer) (uri : String) (f : ResourceFunc) : MCPServer :=
  { s with resources := dictInsert uri f s.resources }

/-- Registering a sequence of tools in order. -/
def registerTools (s : MCPServer) (fs : List PyFunc) : MCPServer :=
  fs.foldl MCPServer.tool s

/-! ### Resource names (`uri.split("://")`) -/

/-- Python `s.split("://")` on the character list: split at every
non-overlapping occurrence of `"://"`, left to right. -/
def splitSep : List Char → List (List Char)
  | [] => [[]]
  | ':' :: '/' :: '/' :: rest => [] :: splitSep rest
  | c :: rest => (splitSep rest).modifyHead (c :: ·)

/-- Python `"://" in s` on the character list. -/
def containsSep : List Char → Bool
  | [] => false
  | ':' :: '/' :: '/' :: _ => true
  | _ :: rest => containsSep rest

/-- The `name` computed by `_handle_resources_list`:
`uri.split("://")[1] if "://" in uri else uri`. -/
def resourceName (uri : String) : String :=
  if containsSep uri.toList then
    ((splitSep uri.toList).getD 1 []).asString
  else uri

/-! ### Response construction and the five method handlers -/

/-- Embedding of `_error_response`. -/
def _error_response (request_id : Json) (code : Int) (message : String) : Json :=
  .obj [("jsonrpc", .str "2.0"),
        ("id", request_id),
        ("error", .obj [("code", .num code), ("message", .str message)])]

/-- Embedding of `_handle_initialize`. -/
def _handle_initialize (s : MCPServer) (request_id : Json) : Json :=
  .obj [("jsonrpc", .str "2.0"),
        ("id", request_id),
        ("result", .obj
          [("protocolVersion", .str "2024-11-05"),
           ("capabilities", .obj [("tools", .obj []), ("resources", .obj [])]),
           ("serverInfo", .obj [("name", .str s.nm), ("version", .str "1.0.0")])])]

/-- Embedding of `_handle_tools_list`: `list(self.tools.values())`. -/
def _handle_tools_list (s : MCPServer) (request_id : Json) : Json :=
  .obj [("jsonrpc", .str "2.0"),
        ("id", request_id),
        ("result", .obj [("tools", .arr (s.tools.map (·.2)))])]

/-- The success envelope of a tool call. -/
def toolCallSuccess (request_id : Json) (result : Json) : Json :=
  .obj [("jsonrpc", .str "2.0"),
        ("id", request_id),
        ("result", .obj
          [("content", .arr [.obj [("type", .str "text"),
                                   ("text", .str (json_dumps result))]])])]

/-- Embedding of `_handle_tool_call`: extract `name` and `arguments` from
`params`, check membership in `self.tools`, index `self.tool_functions`,
call the handler with the arguments, wrap the serialized result. -/
def _handle_tool_call (s : MCPServer) (params request_id : Json) :
    Except String Json := do
  let tool_name ← jsonGetAttrGet params "name" .null
  let arguments ← jsonGetAttrGet params "arguments" (.obj [])
  let notin ← pyNotIn (dictKeys s.tools) tool_name
  if notin then
    pure (_error_response request_id (-32602) ("Unknown tool: " ++ pyStr tool_name))
  else do
    let f ← pyDictIndex s.tool_functions tool_name
    let result ← f arguments
    pure (toolCallSuccess request_id result)

/-- One ResourceDescriptor of `_handle_resources_list`. -/
def resourceDescriptor (uri : String) : Json :=
  .obj [("uri", .str uri),
        ("name", .str (resourceName uri)),
        ("mimeType", .str "text/plain")]

/-- Embedding of `_handle_resources_list`. -/
def _handle_resources_list (s : MCPServer) (request_id : Json) : Json :=
  .obj [("jsonrpc", .str "2.0"),
        ("id", request_id),
        ("result", .obj
          [("resources", .arr (s.resources.map (fun kv => resourceDescriptor kv.1)))])]

/-- The success envelope of a resource read. -/
def resourceReadSuccess (request_id uri : Json) (content : String) : Json :=
  .obj [("jsonrpc", .str "2.0"),
        ("id", request_id),
        ("result", .obj
          [("contents", .arr [.obj [("uri", uri),
                                    ("mimeType", .str "text/plain"),
                                    ("text", .str content)]])])]

/-- Embedding of `_handle_resource_read`. -/
def _handle_resource_read (s : MCPServer) (params request_id : Json) :
    Except String Json := do
  let uri ← jsonGetAttrGet params "uri" .null
  let notin ← pyNotIn (dictKeys s.resources) uri
  if notin then
    pure (_error_response request_id (-32602) ("Unknown resource: " ++ pyStr uri))
  else do
    let f ← pyDictIndex s.resources uri
    let content ← f ()
    pure (resourceReadSuccess request_id uri content)

/-! ### The dispatcher (`handle_request`) and the transport loop (`run`) -/

/-- The `try`/`except` body of `handle_request`: route on `method`; any
exception raised by the routed branch is caught and converted to a
`-32603` envelope carrying `str(e)`. -/
def dispatch (s : MCPServer) (method params request_id : Json) : Json :=
  let routed : Except String Json :=
    match method with
    | .str "initialize" => pure ( _handle_initialize s request_id)
    | .str "tools/list" => pure (_handle_tools_list s request_id)
    | .str "tools/call" => _handle_tool_call s params request_id
    | .str "resources/list" => pure (_handle_resources_list s request_id)
    | .str "resources/read" => _handle_resource_read s params request_id
    | m => pure (_error_response request_id (-32601) ("Method not found: " ++ pyStr m))
  match routed with
  | .ok resp => resp
  | .error e => _error_response request_id (-32603) e

/-- Embedding of `handle_request`: the three `request.get(...)` reads happen
before the `try` block, so they raise `AttributeError` past the dispatcher
when the decoded value is not a dict; the routing itself never raises. -/
def handle_request (s : MCPServer) (request : Json) : Except String Json := do
  let method ← jsonGetAttrGet request "method" .null
  let params ← jsonGetAttrGet request "params" (.obj [])
  let request_id ← jsonGetAttrGet request "id" .null
  pure (dispatch s method params request_id)

/-- The `-32700` envelope emitted by the transport loop's `except` branch. -/
def parse_error_response (msg : String) : Json :=
  .obj [("jsonrpc", .str "2.0"),
        ("id", .null),
        ("error", .obj [("code", .num (-32700)),
                        ("message", .str ("Parse error: " ++ msg))])]

/-- One iteration body of the transport loop: decode the line, dispatch,
and convert any exception (decode failure or a raise escaping
`handle_request`) into the `-32700` envelope. -/
def loopStep (s : MCPServer) (decode : String → Except String Json)
    (line : String) : Json :=
  match decode line with
  | .error e => parse_error_response e
  | .ok req =>
    match handle_request s req with
    | .ok resp => resp
    | .error e => parse_error_response e

/-- Embedding of `run`: read lines until an empty read (end of stream),
emitting one response per line. `decode` stands for `json.loads`. -/
def runLoop (s : MCPServer) (decode : String → Except String Json) :
    List String → List Json
  | [] => []
  | line :: rest =>
    if line = "" then []
    else loopStep s decode line :: runLoop s decode rest

/-! ### Navigation helpers for stating properties about envelopes -/

/-- Lookup of a key in a JSON object (none on non-objects). -/
def jLookup (j : Json) (k : String) : Option Json :=
  match j with
  | .obj kvs => dictLookup kvs k
  | _ => none

/-- Field access with `null` default. -/
def jGet (j : Json) (k : String) : Json := (jLookup j k).getD .null

/-- Array index with `null` default. -/
def jIdx (j : Json) (i : Nat) : Json :=
  match j with
  | .arr xs => xs.getD i .null
  | _ => .null

/-- Unwrap a non-raising dispatch outcome (`null` when it raised). -/
def okOr (e : Except String Json) : Json :=
  match e with
  | .ok j => j
  | .error _ => .null

/-- A well-formed ResponseEnvelope: an object with `jsonrpc: "2.0"`, an
`id` key, and exactly one of `result` and `error`. -/
def IsResponseEnvelope (j : Json) : Bool :=
  (match jLookup j "jsonrpc" with
   | some (.str v) => v = "2.0"
   | _ => false) &&
  (jLookup j "id").isSome &&
  ((jLookup j "result").isSome != (jLookup j "error").isSome)

/-! ### Spec-side definitions and concrete fixtures -/

/-- A well-formed `tools/call` request object. -/
def toolCallReq (request_id nmj args : Json) : Json :=
  .obj [("jsonrpc", .str "2.0"),
        ("id", request_id),
        ("method", .str "tools/call"),
        ("params", .obj [("name", nmj), ("arguments", args)])]

/-- A well-formed `resources/read` request object. -/
def resourceReadReq (request_id urij : Json) : Json :=
  .obj [("jsonrpc", .str "2.0"),
        ("id", request_id),
        ("method", .str "resources/read"),
        ("params", .obj [("uri", urij)])]

/-- The most recently registered function of a given name in a registration
sequence (later entries take precedence). -/
def mostRecent (fs : List PyFunc) (nm : String) : Option PyFunc :=
  match fs with
  | [] => none
  | f :: rest =>
    match mostRecent rest nm with
    | some g => some g
    | none => if f.nm = nm then some f else none

/-- The characters after the first occurrence of `"://"` (empty when no
occurrence exists). -/
def afterFirstSep : List Char → List Char
  | [] => []
  | ':' :: '/' :: '/' :: rest => rest
  | _ :: rest => afterFirstSep rest

/-- Modelled from the spec's words (ResourceDescriptor): the name is "the
path portion after `://`, or the full URI if no scheme separator is
present". -/
def specResourceName (uri : String) : String :=
  if containsSep uri.toList then (afterFirstSep uri.toList).asString else uri

/-- Fixture: a tool behavior echoing its arguments value. -/
def echoImpl : Json → Except String Json := fun a => .ok a

/-- Fixture: a tool behavior that always raises. -/
def boomImpl : Json → Except String Json := fun _ => .error "boom"

/-- Fixture: an `echo` tool. -/
def echoFunc : PyFunc :=
  ⟨"echo", some "Echo the arguments.", [⟨"a", some (.simple .pint), none⟩], echoImpl⟩

/-- Fixture: a `boom` tool whose handler raises. -/
def boomFunc : PyFunc :=
  ⟨"boom", none, [⟨"a", some (.simple .pstr), some (.str "x")⟩], boomImpl⟩

/-- Fixture: a resource handler returning a fixed status string. -/
def statusRes : ResourceFunc := fun _ => .ok "OK"

/-- Fixture: a resource handler that raises. -/
def badRes : ResourceFunc := fun _ => .error "rboom"

/-- Fixture server: two tools and two resources, built through the
registration operations. -/
def s0 : MCPServer :=
  ((((MCPServer.new "SystemMonitor").tool echoFunc).tool boomFunc).resource
      "system://status" statusRes).resource "res://bad" badRes

/-- Fixture server for resource naming: one URI with two separators. -/
def s9 : MCPServer :=
  (MCPServer.new "S").resource "a://b://c" (fun _ => .ok "x")

/-- Fixture decoder that always fails (a line that is not valid JSON). -/
def decodeFail : String → Except String Json :=
  fun _ => .error "Expecting value: line 1 column 1 (char 0)"

/-- Fixture decoder returning a fixed decoded value for every line. -/
def decodeConst (j : Json) : String → Except String Json := fun _ => .ok j

/-! ### Shared lemmas: Except bind, envelopes, splitting, dicts -/

lemma ebind_ok (a : α) (f : α → Except String β) : (Except.ok a >>= f) = f a := rfl

lemma ebind_error (e : String) (f : α → Except String β) :
    ((Except.error e : Except String α) >>= f) = .error e := rfl

lemma env_error (rid : Json) (c : Int) (m : String) :
    IsResponseEnvelope (_error_response rid c m) = true ∧
    jLookup (_error_response rid c m) "id" = some rid := ⟨rfl, rfl⟩

lemma env_tool_success (rid r : Json) :
    IsResponseEnvelope (toolCallSuccess rid r) = true ∧
    jLookup (toolCallSuccess rid r) "id" = some rid := ⟨rfl, rfl⟩

lemma env_read_success (rid u : Json) (c : String) :
    IsResponseEnvelope (resourceReadSuccess rid u c) = true ∧
    jLookup (resourceReadSuccess rid u c) "id" = some rid := ⟨rfl, rfl⟩

lemma tool_call_ok (s : MCPServer) (params rid r : Json)
    (h : _handle_tool_call s params rid = .ok r) :
    IsResponseEnvelope r = true ∧ jLookup r "id" = some rid := by
  unfold _handle_tool_call at h
  cases h1 : jsonGetAttrGet params "name" .null with
  | error e => rw [h1, ebind_error] at h; exact Except.noConfusion h
  | ok tool_name =>
  rw [h1, ebind_ok] at h
  cases h2 : jsonGetAttrGet params "arguments" (.obj []) with
  | error e => rw [h2, ebind_error] at h; exact Except.noConfusion h
  | ok arguments =>
  rw [h2, ebind_ok] at h
  cases h3 : pyNotIn (dictKeys s.tools) tool_name with
  | error e => rw [h3, ebind_error] at h; exact Except.noConfusion h
  | ok notin =>
  rw [h3, ebind_ok] at h
  cases notin with
  | true =>
    simp only [if_pos] at h
    cases h
    exact env_error rid _ _
  | false =>
  simp only [Bool.false_eq_true, if_neg, not_false_iff] at h
  cases h4 : pyDictIndex s.tool_functions tool_name with
  | error e => rw [h4, ebind_error] at h; exact Except.noConfusion h
  | ok f =>
  rw [h4, ebind_ok] at h
  cases h5 : f arguments with
  | error e => rw [h5, ebind_error] at h; exact Except.noConfusion h
  | ok result =>
  rw [h5, ebind_ok] at h
  cases h
  exact env_tool_success rid result

lemma resource_read_ok (s : MCPServer) (params rid r : Json)
    (h : _handle_resource_read s params rid = .ok r) :
    IsResponseEnvelope r = true ∧ jLookup r "id" = some rid := by
  unfold _handle_resource_read at h
  cases h1 : jsonGetAttrGet params "uri" .null with
  | error e => rw [h1, ebind_error] at h; exact Except.noConfusion h
  | ok uri =>
  rw [h1, ebind_ok] at h
  cases h2 : pyNotIn (dictKeys s.resources) uri with
  | error e => rw [h2, ebind_error] at h; exact Except.noConfusion h
  | ok notin =>
  rw [h2, ebind_ok] at h
  cases notin with
  | true =>
    simp only [if_pos] at h
    cases h
    exact env_error rid _ _
  | false =>
  simp only [Bool.false_eq_true, if_neg, not_false_iff] at h
  cases h3 : pyDictIndex s.resources uri with
  | error e => rw [h3, ebind_error] at h; exact Except.noConfusion h
  | ok f =>
  rw [h3, ebind_ok] at h
  cases h4 : f () with
  | error e => rw [h4, ebind_error] at h; exact Except.noConfusion h
  | ok content =>
  rw [h4, ebind_ok] at h
  cases h
  exact env_read_success rid uri content

lemma dispatch_env_id (s : MCPServer) (method params rid : Json) :
    IsResponseEnvelope (dispatch s method params rid) = true ∧
    jLookup (dispatch s method params rid) "id" = some rid := by
  unfold dispatch
  cases method with
  | str m =>
    by_cases h1 : m = "initialize"
    · subst h1; exact ⟨rfl, rfl⟩
    · by_cases h2 : m = "tools/list"
      · subst h2; exact ⟨rfl, rfl⟩
      · by_cases h3 : m = "tools/call"
        · subst h3
          cases hr : _handle_tool_call s params rid with
          | ok r => simpa [hr] using tool_call_ok s params rid r hr
          | error e => simp [hr]; exact env_error rid _ _
        · by_cases h4 : m = "resources/list"
          · subst h4; exact ⟨rfl, rfl⟩
          · by_cases h5 : m = "resources/read"
            · subst h5
              cases hr : _handle_resource_read s params rid with
              | ok r => simpa [hr] using resource_read_ok s params rid r hr
              | error e => simp [hr]; exact env_error rid _ _
            · simp [h1, h2, h3, h4, h5]
              exact env_error rid _ _
  | null => exact ⟨rfl, rfl⟩
  | bool b => cases b <;> exact ⟨rfl, rfl⟩
  | num n => exact ⟨rfl, rfl⟩
  | arr xs => exact ⟨rfl, rfl⟩
  | obj kvs => exact ⟨rfl, rfl⟩

lemma handle_request_obj (s : MCPServer) (kvs : List (String × Json)) :
    handle_request s (.obj kvs)
      = .ok (dispatch s (pyGet kvs "method") (pyGetD kvs "params" (.obj [])) (pyGet kvs "id")) :=
  rfl

lemma containsSep_cons {c : Char} {rest : List Char}
    (hne : ∀ r', c = ':' → rest = '/' :: '/' :: r' → False) :
    containsSep (c :: rest) = containsSep rest := by
  rw [containsSep.eq_def]
  split
  · rename_i heq; exact List.noConfusion heq
  · rename_i heq
    injection heq with hc hrest
    exact (hne _ hc hrest).elim
  · rename_i heq; injection heq with h1 h2; rw [h2]

lemma afterFirstSep_cons {c : Char} {rest : List Char}
    (hne : ∀ r', c = ':' → rest = '/' :: '/' :: r' → False) :
    afterFirstSep (c :: rest) = afterFirstSep rest := by
  rw [afterFirstSep.eq_def]
  split
  · rename_i heq; exact List.noConfusion heq
  · rename_i heq
    injection heq with hc hrest
    exact (hne _ hc hrest).elim
  · rename_i heq; injection heq with h1 h2; rw [h2]

lemma splitSep_cons {c : Char} {rest : List Char}
    (hne : ∀ r', c = ':' → rest = '/' :: '/' :: r' → False) :
    splitSep (c :: rest) = (splitSep rest).modifyHead (c :: ·) := by
  rw [splitSep.eq_def]
  split
  · rename_i heq; exact List.noConfusion heq
  · rename_i heq
    injection heq with hc hrest
    exact (hne _ hc hrest).elim
  · rename_i heq; injection heq with h1 h2; rw [h1, h2]

lemma splitSep_single (l : List Char) (h : containsSep l = false) : splitSep l = [l] := by
  induction l using splitSep.induct with
  | case1 => rfl
  | case2 rest => simp [containsSep] at h
  | case3 c rest hne ih =>
    rw [containsSep_cons hne] at h
    rw [splitSep_cons hne, ih h]
    rfl

lemma getD_one_modifyHead (f : List Char → List Char) (xs : List (List Char)) :
    (xs.modifyHead f).getD 1 [] = xs.getD 1 [] := by
  cases xs with
  | nil => rfl
  | cons a t => rfl

lemma splitSep_second (l : List Char) (h1 : containsSep l = true)
    (h2 : containsSep (afterFirstSep l) = false) :
    (splitSep l).getD 1 [] = afterFirstSep l := by
  induction l using splitSep.induct with
  | case1 => simp [containsSep] at h1
  | case2 rest =>
    have ha : afterFirstSep (':' :: '/' :: '/' :: rest) = rest := rfl
    rw [ha] at h2
    rw [show splitSep (':' :: '/' :: '/' :: rest) = [] :: splitSep rest from rfl]
    rw [ha, splitSep_single rest h2]
    rfl
  | case3 c rest hne ih =>
    rw [containsSep_cons hne] at h1
    rw [afterFirstSep_cons hne] at h2 ⊢
    rw [splitSep_cons hne, getD_one_modifyHead]
    exact ih h1 h2

lemma dictLookup_insert (k : String) (v : α) (d : List (String × α)) (k' : String) :
    dictLookup (dictInsert k v d) k' = if k' = k then some v else dictLookup d k' := by
  induction d with
  | nil =>
    by_cases h : k' = k
    · subst h; simp [dictInsert, dictLookup]
    · have h' : ¬ k = k' := fun hh => h hh.symm
      simp [dictInsert, dictLookup, h, h']
  | cons p rest ih =>
    obtain ⟨pk, pv⟩ := p
    by_cases hpk : pk = k
    · subst hpk
      by_cases h : k' = pk
      · subst h; simp [dictInsert, dictLookup]
      · have h' : ¬ pk = k' := fun hh => h hh.symm
        simp [dictInsert, dictLookup, h, h']
    · simp only [dictInsert, if_neg hpk]
      by_cases h2 : k' = k
      · subst h2
        have hpk' : ¬ pk = k' := hpk
        simp [dictLookup, hpk', ih]
      · by_cases h1 : pk = k'
        · subst h1
          simp [dictLookup, ih, h2]
        · simp [dictLookup, h1, ih, h2]

lemma dictKeys_insert_mem (k : String) (v : α) (d : List (String × α))
    (h : k ∈ dictKeys d) : dictKeys (dictInsert k v d) = dictKeys d := by
  induction d with
  | nil => simp [dictKeys] at h
  | cons p rest ih =>
    obtain ⟨pk, pv⟩ := p
    by_cases hpk : pk = k
    · subst hpk; simp [dictInsert, dictKeys]
    · have hk : k ∈ dictKeys rest := by
        simp [dictKeys] at h ⊢
        rcases h with h | h
        · exact absurd h.symm hpk
        · exact h
      have hrec := ih hk
      simp only [dictKeys] at hrec
      simp [dictInsert, hpk, dictKeys, hrec]

lemma dictKeys_insert_not_mem (k : String) (v : α) (d : List (String × α))
    (h : ¬ k ∈ dictKeys d) : dictKeys (dictInsert k v d) = dictKeys d ++ [k] := by
  induction d with
  | nil => simp [dictInsert, dictKeys]
  | cons p rest ih =>
    obtain ⟨pk, pv⟩ := p
    by_cases hpk : pk = k
    · subst hpk; simp [dictKeys] at h
    · have hk : ¬ k ∈ dictKeys rest := by
        intro hmem
        exact h (by simp [dictKeys] at hmem ⊢; right; exact hmem)
      have hrec := ih hk
      simp only [dictKeys] at hrec
      simp [dictInsert, hpk, dictKeys, hrec]

lemma dictLookup_isSome_iff (d : List (String × α)) (k : String) :
    (dictLookup d k).isSome ↔ k ∈ dictKeys d := by
  induction d with
  | nil => simp [dictLookup, dictKeys]
  | cons p rest ih =>
    obtain ⟨pk, pv⟩ := p
    by_cases h : pk = k
    · subst h; simp [dictLookup, dictKeys]
    · have h3 : ¬ k = pk := fun hh => h hh.symm
      simp [dictLookup, dictKeys, h, h3, ih]

lemma reg_keys_eq (fs : List PyFunc) : ∀ s : MCPServer,
    dictKeys s.tools = dictKeys s.tool_functions →
    dictKeys (registerTools s fs).tools = dictKeys (registerTools s fs).tool_functions := by
  induction fs with
  | nil => intro s h; exact h
  | cons f rest ih =>
    intro s h
    have hstep : registerTools s (f :: rest) = registerTools (s.tool f) rest := rfl
    rw [hstep]
    apply ih
    show dictKeys (dictInsert f.nm (toolDescriptor f) s.tools)
        = dictKeys (dictInsert f.nm f.impl s.tool_functions)
    by_cases hm : f.nm ∈ dictKeys s.tools
    · rw [dictKeys_insert_mem _ _ _ hm, dictKeys_insert_mem _ _ _ (h ▸ hm), h]
    · rw [dictKeys_insert_not_mem _ _ _ hm, dictKeys_insert_not_mem _ _ _ (h ▸ hm), h]

lemma reg_lookup (fs : List PyFunc) : ∀ (s : MCPServer) (nm : String),
    dictLookup (registerTools s fs).tool_functions nm
      = match mostRecent fs nm with
        | some g => some g.impl
        | none => dictLookup s.tool_functions nm := by
  induction fs with
  | nil => intro s nm; rfl
  | cons f rest ih =>
    intro s nm
    have hstep : registerTools s (f :: rest) = registerTools (s.tool f) rest := rfl
    rw [hstep, ih]
    cases hmr : mostRecent rest nm with
    | some g => simp [mostRecent, hmr]
    | none =>
      simp only [mostRecent, hmr]
      rw [show (MCPServer.tool s f).tool_functions = dictInsert f.nm f.impl s.tool_functions from rfl]
      rw [dictLookup_insert]
      by_cases h : f.nm = nm
      · subst h; simp
      · have h' : ¬ nm = f.nm := fun hh => h hh.symm
        simp [h, h']

lemma handle_tool_call_registered (s : MCPServer) (nm : String)
    (fimpl : Json → Except String Json) (args rid : Json)
    (hmem : nm ∈ dictKeys s.tools) (hlk : dictLookup s.tool_functions nm = some fimpl) :
    _handle_tool_call s (.obj [("name", .str nm), ("arguments", args)]) rid
      = Except.map (toolCallSuccess rid) (fimpl args) := by
  unfold _handle_tool_call
  rw [show jsonGetAttrGet (Json.obj [("name", .str nm), ("arguments", args)]) "name" .null
        = .ok (.str nm) from rfl, ebind_ok]
  rw [show jsonGetAttrGet (Json.obj [("name", .str nm), ("arguments", args)]) "arguments" (.obj [])
        = .ok args from rfl, ebind_ok]
  have hc : (dictKeys s.tools).contains nm = true := by simp [hmem]
  rw [show pyNotIn (dictKeys s.tools) (.str nm) = .ok (!(dictKeys s.tools).contains nm) from rfl]
  rw [hc, ebind_ok]
  simp only [Bool.not_true, Bool.false_eq_true, if_false]
  simp only [pyDictIndex]
  rw [hlk]
  rw [ebind_ok]
  cases fimpl args <;> rfl

lemma schemaFields_required (sig : List Param) :
    (schemaFields sig).2
      = (sig.filter (fun p => !(p.nm == "self") && p.dflt.isNone)).map Param.nm := by
  induction sig with
  | nil => rfl
  | cons p rest ih =>
    simp only [schemaFields, List.filter]
    by_cases h : p.nm = "self"
    · simp [h, ih]
    · have hb : (p.nm == "self") = false := by simp [h]
      by_cases hd : p.dflt.isNone
      · simp [h, hb, hd, ih]
      · simp [h, hb, hd, ih]

/-! ### The claims -/

/-- C3: for every input line that is not valid JSON, the transport loop
emits a response with `id` null and `error.code` `-32700`, and continues
with the next line. The emitted envelope is `parse_error_response e`,
independent of the dispatcher, so no dispatch is attempted. -/
theorem malformed_line_gives_parse_error (s : MCPServer)
    (decode : String → Except String Json) (line : String) (rest : List String)
    (e : String) (hne : line ≠ "") (hdec : decode line = .error e) :
    runLoop s decode (line :: rest) = parse_error_response e :: runLoop s decode rest
    ∧ jGet (parse_error_response e) "id" = .null
    ∧ jGet (jGet (parse_error_response e) "error") "code" = .num (-32700) := by
  refine ⟨?_, rfl, rfl⟩
  simp only [runLoop, if_neg hne]
  unfold loopStep
  rw [hdec]

/-- Witness for C3 at a concrete malformed line. -/
theorem malformed_line_gives_parse_error_witness :
    runLoop s0 decodeFail ("x" :: ["y"])
      = parse_error_response "Expecting value: line 1 column 1 (char 0)"
          :: runLoop s0 decodeFail ["y"]
    ∧ jGet (parse_error_response "Expecting value: line 1 column 1 (char 0)") "id" = .null
    ∧ jGet (jGet (parse_error_response "Expecting value: line 1 column 1 (char 0)") "error")
        "code" = .num (-32700) :=
  malformed_line_gives_parse_error s0 decodeFail "x" ["y"] _ (by decide) rfl

/-- C7: a parameter other than `self` enters `required` iff it lacks a
default value, and `required` preserves the declaration order (it is the
order-preserving filter of the signature). -/
theorem schema_required_iff_no_default (sig : List Param) :
    jGet (_get_schema sig) "required"
      = .arr ((sig.filter (fun p => !(p.nm == "self") && p.dflt.isNone)).map
          (fun p => Json.str p.nm))
    ∧ ∀ n : String,
        n ∈ (schemaFields sig).2
          ↔ ∃ p ∈ sig, p.nm = n ∧ n ≠ "self" ∧ p.dflt = none := by
  constructor
  · show Json.arr ((schemaFields sig).2.map Json.str) = _
    rw [schemaFields_required, List.map_map]
    rfl
  · intro n
    rw [schemaFields_required]
    simp only [List.mem_map, List.mem_filter, Bool.and_eq_true, Bool.not_eq_true',
      beq_eq_false_iff_ne, ne_eq, Option.isNone_iff_eq_none]
    constructor
    · rintro ⟨p, ⟨hp, hself, hdflt⟩, hn⟩
      exact ⟨p, hp, hn, hn ▸ hself, hdflt⟩
    · rintro ⟨p, hp, hn, hself, hdflt⟩
      exact ⟨p, ⟨hp, hn.symm ▸ hself, hdflt⟩, hn⟩

/-- C8: the annotation-to-schema-type mapping: int, float, str, bool, list
and dict map to their JSON schema names; a parameterized generic resolves
via its outer container regardless of element types; an unrecognized type
or an absent annotation maps to "string". -/
theorem type_mapping_spec :
    _python_type_to_json_type (.simple .pint) = "integer"
  ∧ _python_type_to_json_type (.simple .pfloat) = "number"
  ∧ _python_type_to_json_type (.simple .pstr) = "string"
  ∧ _python_type_to_json_type (.simple .pbool) = "boolean"
  ∧ _python_type_to_json_type (.simple .plist) = "array"
  ∧ _python_type_to_json_type (.simple .pdict) = "object"
  ∧ (∀ (origin : PyBase) (args : List PyBase),
      _python_type_to_json_type (.generic origin args)
        = _python_type_to_json_type (.simple origin))
  ∧ (∀ nm, _python_type_to_json_type (.simple (.pother nm)) = "string")
  ∧ paramJsonType none = "string" :=
  ⟨rfl, rfl, rfl, rfl, rfl, rfl, fun _ _ => rfl, fun _ => rfl, rfl⟩

lemma handle_request_toolCallReq (s : MCPServer) (rid nmj args : Json) :
    handle_request s (toolCallReq rid nmj args)
      = .ok (match _handle_tool_call s (.obj [("name", nmj), ("arguments", args)]) rid with
             | .ok r => r
             | .error e => _error_response rid (-32603) e) := rfl

lemma handle_request_resourceReadReq (s : MCPServer) (rid urij : Json) :
    handle_request s (resourceReadReq rid urij)
      = .ok (match _handle_resource_read s (.obj [("uri", urij)]) rid with
             | .ok r => r
             | .error e => _error_response rid (-32603) e) := rfl

lemma handle_resource_read_registered (s : MCPServer) (uri : String)
    (g : ResourceFunc) (rid : Json)
    (hmem : uri ∈ dictKeys s.resources) (hlk : dictLookup s.resources uri = some g) :
    _handle_resource_read s (.obj [("uri", .str uri)]) rid
      = Except.map (resourceReadSuccess rid (.str uri)) (g ()) := by
  unfold _handle_resource_read
  rw [show jsonGetAttrGet (Json.obj [("uri", .str uri)]) "uri" .null
        = .ok (.str uri) from rfl, ebind_ok]
  have hc : (dictKeys s.resources).contains uri = true := by simp [hmem]
  rw [show pyNotIn (dictKeys s.resources) (.str uri)
        = .ok (!(dictKeys s.resources).contains uri) from rfl]
  rw [hc, ebind_ok]
  simp only [Bool.not_true, Bool.false_eq_true, if_false]
  simp only [pyDictIndex]
  rw [hlk]
  rw [ebind_ok]
  cases g () <;> rfl

/-- C2 counterexample: a decoded JSON value that is not an object, here the
valid JSON line `42`, makes `handle_request` raise an `AttributeError`
past its caller instead of returning a ResponseEnvelope. -/
theorem dispatcher_raises_on_nonobject_counterexample :
    handle_request s0 (.num 42) = .error "'int' object has no attribute 'get'"
    ∧ ∀ resp : Json, handle_request s0 (.num 42) ≠ Except.ok resp := by
  refine ⟨rfl, ?_⟩
  intro resp h
  rw [show handle_request s0 (.num 42)
        = .error "'int' object has no attribute 'get'" from rfl] at h
  exact Except.noConfusion h

/-- C2 amended: for every decoded JSON object, `handle_request` returns a
ResponseEnvelope and never raises; for every non-object decoded value it
raises an attribute error to its caller (which the transport loop reports
as a `-32700` parse error). -/
theorem dispatcher_total_on_objects (s : MCPServer) (kvs : List (String × Json)) (j : Json) :
    (∃ resp, handle_request s (.obj kvs) = .ok resp ∧ IsResponseEnvelope resp = true)
    ∧ ((∀ l, j ≠ .obj l) → ∃ e, handle_request s j = .error e) := by
  constructor
  · exact ⟨_, handle_request_obj s kvs, (dispatch_env_id s _ _ _).1⟩
  · intro h
    cases j with
    | obj l => exact absurd rfl (h l)
    | null => exact ⟨_, rfl⟩
    | bool b => exact ⟨_, rfl⟩
    | num n => exact ⟨_, rfl⟩
    | str m => exact ⟨_, rfl⟩
    | arr xs => exact ⟨_, rfl⟩

/-- Witness for the amended C2 at a concrete object request and a concrete
non-object value. -/
theorem dispatcher_total_on_objects_witness :
    (∃ resp, handle_request s0 (.obj [("method", .str "initialize"), ("id", .num 1)])
        = .ok resp ∧ IsResponseEnvelope resp = true)
    ∧ ∃ e, handle_request s0 (.num 42) = .error e :=
  ⟨(dispatcher_total_on_objects s0 [("method", .str "initialize"), ("id", .num 1)] (.num 42)).1,
   (dispatcher_total_on_objects s0 [("method", .str "initialize"), ("id", .num 1)] (.num 42)).2
     (fun _ h => Json.noConfusion h)⟩

/-- C6: every response produced by the dispatcher for an object request
carries exactly the request's `id` (`request.get("id")`, so a missing id is
echoed as null), across success and all error envelopes. -/
theorem response_id_echoes_request_id (s : MCPServer) (kvs : List (String × Json))
    (resp : Json) (h : handle_request s (.obj kvs) = .ok resp) :
    jLookup resp "id" = some (pyGet kvs "id") := by
  rw [handle_request_obj] at h
  injection h with h
  rw [← h]
  exact (dispatch_env_id s _ _ _).2

/-- Witness for C6 on a concrete `tools/call` request with id 7. -/
theorem response_id_echoes_request_id_witness :
    jLookup (toolCallSuccess (.num 7) (.obj [("a", .num 5)])) "id"
      = some (pyGet [("jsonrpc", .str "2.0"), ("id", .num 7), ("method", .str "tools/call"),
          ("params", .obj [("name", .str "echo"), ("arguments", .obj [("a", .num 5)])])] "id") :=
  response_id_echoes_request_id s0
    [("jsonrpc", .str "2.0"), ("id", .num 7), ("method", .str "tools/call"),
     ("params", .obj [("name", .str "echo"), ("arguments", .obj [("a", .num 5)])])]
    (toolCallSuccess (.num 7) (.obj [("a", .num 5)])) rfl

/-- C1 counterexample: a `tools/call` whose `params.name` is the decoded
array `[]` is not a key of the tool registry, yet the membership test
raises `TypeError` (lists are unhashable) and the response carries code
`-32603`, not the claimed `-32602`. -/
theorem tool_call_unhashable_name_counterexample :
    handle_request s0 (toolCallReq .null (.arr []) (.obj []))
      = .ok (_error_response .null (-32603) "unhashable type: 'list'")
    ∧ jGet (jGet (okOr (handle_request s0 (toolCallReq .null (.arr []) (.obj [])))) "error")
        "code" = .num (-32603)
    ∧ Json.num (-32603) ≠ Json.num (-32602) := by
  refine ⟨rfl, rfl, ?_⟩
  intro h
  injection h with h
  exact absurd h (by decide)

/-- C1 amended: a hashable `params.name` that is not a registry key yields
`-32602`; an array or object name raises `TypeError` and yields `-32603`;
a registered name whose handler accepts the arguments and returns a value
yields the success envelope whose single `content` entry is
`{type: "text", text: json_dumps result}`. -/
theorem tool_call_dispatch_spec (s : MCPServer) (rid nmj args result : Json)
    (nm : String) (f : Json → Except String Json) :
    (pyNotIn (dictKeys s.tools) nmj = .ok true →
      handle_request s (toolCallReq rid nmj args)
        = .ok (_error_response rid (-32602) ("Unknown tool: " ++ pyStr nmj)))
    ∧ ((dictKeys s.tools).contains nm = true →
       dictLookup s.tool_functions nm = some f → f args = .ok result →
       handle_request s (toolCallReq rid (.str nm) args)
         = .ok (toolCallSuccess rid result))
    ∧ (∀ xs, handle_request s (toolCallReq rid (.arr xs) args)
        = .ok (_error_response rid (-32603) "unhashable type: 'list'"))
    ∧ (∀ kvs, handle_request s (toolCallReq rid (.obj kvs) args)
        = .ok (_error_response rid (-32603) "unhashable type: 'dict'")) := by
  refine ⟨?_, ?_, ?_, ?_⟩
  · intro h1
    rw [handle_request_toolCallReq]
    have hX : _handle_tool_call s (.obj [("name", nmj), ("arguments", args)]) rid
        = .ok (_error_response rid (-32602) ("Unknown tool: " ++ pyStr nmj)) := by
      unfold _handle_tool_call
      rw [show jsonGetAttrGet (Json.obj [("name", nmj), ("arguments", args)]) "name" .null
            = .ok nmj from rfl, ebind_ok]
      rw [show jsonGetAttrGet (Json.obj [("name", nmj), ("arguments", args)]) "arguments"
            (.obj []) = .ok args from rfl, ebind_ok]
      rw [h1, ebind_ok]
      rfl
    rw [hX]
  · intro hc hlk hok
    rw [handle_request_toolCallReq]
    rw [handle_tool_call_registered s nm f args rid (by simpa using hc) hlk]
    rw [hok]
    rfl
  · intro xs
    rw [handle_request_toolCallReq]
    have hX : _handle_tool_call s (.obj [("name", .arr xs), ("arguments", args)]) rid
        = .error "unhashable type: 'list'" := by
      unfold _handle_tool_call
      rw [show jsonGetAttrGet (Json.obj [("name", Json.arr xs), ("arguments", args)]) "name"
            .null = .ok (.arr xs) from rfl, ebind_ok]
      rw [show jsonGetAttrGet (Json.obj [("name", Json.arr xs), ("arguments", args)])
            "arguments" (.obj []) = .ok args from rfl, ebind_ok]
      rfl
    rw [hX]
  · intro kvs
    rw [handle_request_toolCallReq]
    have hX : _handle_tool_call s (.obj [("name", .obj kvs), ("arguments", args)]) rid
        = .error "unhashable type: 'dict'" := by
      unfold _handle_tool_call
      rw [show jsonGetAttrGet (Json.obj [("name", Json.obj kvs), ("arguments", args)]) "name"
            .null = .ok (.obj kvs) from rfl, ebind_ok]
      rw [show jsonGetAttrGet (Json.obj [("name", Json.obj kvs), ("arguments", args)])
            "arguments" (.obj []) = .ok args from rfl, ebind_ok]
      rfl
    rw [hX]

/-- Witness for the amended C1: an unregistered string name yields `-32602`
and the registered `echo` tool yields the serialized-result envelope. -/
theorem tool_call_dispatch_spec_witness :
    handle_request s0 (toolCallReq (.num 1) (.str "nope") (.obj []))
      = .ok (_error_response (.num 1) (-32602) ("Unknown tool: " ++ pyStr (.str "nope")))
    ∧ handle_request s0 (toolCallReq (.num 2) (.str "echo") (.obj [("a", .num 5)]))
      = .ok (toolCallSuccess (.num 2) (.obj [("a", .num 5)])) :=
  ⟨(tool_call_dispatch_spec s0 (.num 1) (.str "nope") (.obj []) .null "x" echoImpl).1 rfl,
   (tool_call_dispatch_spec s0 (.num 2) (.str "echo") (.obj [("a", .num 5)])
      (.obj [("a", .num 5)]) "echo" echoImpl).2.1 rfl rfl rfl⟩

/-- C5 counterexample: a `resources/read` whose `params.uri` is the decoded
array `[]` is not a registered URI, yet the membership test raises
`TypeError` and the response carries code `-32603`, not `-32602`. -/
theorem resource_read_unhashable_uri_counterexample :
    handle_request s0 (resourceReadReq .null (.arr []))
      = .ok (_error_response .null (-32603) "unhashable type: 'list'")
    ∧ jGet (jGet (okOr (handle_request s0 (resourceReadReq .null (.arr [])))) "error")
        "code" = .num (-32603)
    ∧ Json.num (-32603) ≠ Json.num (-32602) := by
  refine ⟨rfl, rfl, ?_⟩
  intro h
  injection h with h
  exact absurd h (by decide)

/-- C5 amended: a hashable `params.uri` that is not registered yields
`-32602` with message `"Unknown resource: "` followed by the uri's string
rendering; an array or object uri raises `TypeError` and yields `-32603`;
a registered URI yields a one-element `contents` carrying the uri,
mimeType `"text/plain"` and the handler's string. -/
theorem resource_read_dispatch_spec (s : MCPServer) (rid urij : Json)
    (uri : String) (g : ResourceFunc) (content : String) :
    (pyNotIn (dictKeys s.resources) urij = .ok true →
      handle_request s (resourceReadReq rid urij)
        = .ok (_error_response rid (-32602) ("Unknown resource: " ++ pyStr urij)))
    ∧ ((dictKeys s.resources).contains uri = true →
       dictLookup s.resources uri = some g → g () = .ok content →
       handle_request s (resourceReadReq rid (.str uri))
         = .ok (resourceReadSuccess rid (.str uri) content))
    ∧ (∀ xs, handle_request s (resourceReadReq rid (.arr xs))
        = .ok (_error_response rid (-32603) "unhashable type: 'list'"))
    ∧ (∀ kvs, handle_request s (resourceReadReq rid (.obj kvs))
        = .ok (_error_response rid (-32603) "unhashable type: 'dict'")) := by
  refine ⟨?_, ?_, ?_, ?_⟩
  · intro h1
    rw [handle_request_resourceReadReq]
    have hX : _handle_resource_read s (.obj [("uri", urij)]) rid
        = .ok (_error_response rid (-32602) ("Unknown resource: " ++ pyStr urij)) := by
      unfold _handle_resource_read
      rw [show jsonGetAttrGet (Json.obj [("uri", urij)]) "uri" .null
            = .ok urij from rfl, ebind_ok]
      rw [h1, ebind_ok]
      rfl
    rw [hX]
  · intro hc hlk hok
    rw [handle_request_resourceReadReq]
    rw [handle_resource_read_registered s uri g rid (by simpa using hc) hlk]
    rw [hok]
    rfl
  · intro xs
    rw [handle_request_resourceReadReq]
    have hX : _handle_resource_read s (.obj [("uri", .arr xs)]) rid
        = .error "unhashable type: 'list'" := by
      unfold _handle_resource_read
      rw [show jsonGetAttrGet (Json.obj [("uri", Json.arr xs)]) "uri" .null
            = .ok (.arr xs) from rfl, ebind_ok]
      rfl
    rw [hX]
  · intro kvs
    rw [handle_request_resourceReadReq]
    have hX : _handle_resource_read s (.obj [("uri", .obj kvs)]) rid
        = .error "unhashable type: 'dict'" := by
      unfold _handle_resource_read
      rw [show jsonGetAttrGet (Json.obj [("uri", Json.obj kvs)]) "uri" .null
            = .ok (.obj kvs) from rfl, ebind_ok]
      rfl
    rw [hX]

/-- Witness for the amended C5: the unregistered string URI
`"system://bogus"` yields `-32602` with the claimed message, and the
registered status resource yields its content. -/
theorem resource_read_dispatch_spec_witness :
    handle_request s0 (resourceReadReq (.num 1) (.str "system://bogus"))
      = .ok (_error_response (.num 1) (-32602)
          ("Unknown resource: " ++ pyStr (.str "system://bogus")))
    ∧ handle_request s0 (resourceReadReq (.num 2) (.str "system://status"))
      = .ok (resourceReadSuccess (.num 2) (.str "system://status") "OK") :=
  ⟨(resource_read_dispatch_spec s0 (.num 1) (.str "system://bogus") "x" statusRes "OK").1 rfl,
   (resource_read_dispatch_spec s0 (.num 2) (.str "system://status") "system://status"
      statusRes "OK").2.1 rfl rfl rfl⟩

/-- C4: when a routed, registered handler (tool or resource) raises, the
response is a `-32603` envelope whose message is the stringified exception,
and the transport loop emits it and continues with the remaining lines. -/
theorem handler_raise_gives_internal_error (s : MCPServer)
    (decode : String → Except String Json) (rid args : Json) (nm : String)
    (f : Json → Except String Json) (g : ResourceFunc) (msg : String)
    (line : String) (rest : List String) :
    ((dictKeys s.tools).contains nm = true →
     dictLookup s.tool_functions nm = some f → f args = .error msg →
     line ≠ "" → decode line = .ok (toolCallReq rid (.str nm) args) →
     runLoop s decode (line :: rest)
       = _error_response rid (-32603) msg :: runLoop s decode rest)
    ∧ ((dictKeys s.resources).contains nm = true →
       dictLookup s.resources nm = some g → g () = .error msg →
       line ≠ "" → decode line = .ok (resourceReadReq rid (.str nm)) →
       runLoop s decode (line :: rest)
         = _error_response rid (-32603) msg :: runLoop s decode rest) := by
  constructor
  · intro hc hlk hf hne hdec
    have hH : handle_request s (toolCallReq rid (.str nm) args)
        = .ok (_error_response rid (-32603) msg) := by
      rw [handle_request_toolCallReq,
          handle_tool_call_registered s nm f args rid (by simpa using hc) hlk, hf]
      rfl
    simp only [runLoop, if_neg hne]
    unfold loopStep
    rw [hdec]
    show (match handle_request s (toolCallReq rid (Json.str nm) args) with
          | Except.ok resp => resp
          | Except.error e => parse_error_response e) :: runLoop s decode rest
        = _error_response rid (-32603) msg :: runLoop s decode rest
    rw [hH]
  · intro hc hlk hg hne hdec
    have hH : handle_request s (resourceReadReq rid (.str nm))
        = .ok (_error_response rid (-32603) msg) := by
      rw [handle_request_resourceReadReq,
          handle_resource_read_registered s nm g rid (by simpa using hc) hlk, hg]
      rfl
    simp only [runLoop, if_neg hne]
    unfold loopStep
    rw [hdec]
    show (match handle_request s (resourceReadReq rid (Json.str nm)) with
          | Except.ok resp => resp
          | Except.error e => parse_error_response e) :: runLoop s decode rest
        = _error_response rid (-32603) msg :: runLoop s decode rest
    rw [hH]

/-- Witness for C4: the `boom` tool and the `res://bad` resource of the
fixture server raise, yielding `-32603` envelopes while the loop goes on. -/
theorem handler_raise_gives_internal_error_witness :
    runLoop s0 (decodeConst (toolCallReq (.num 3) (.str "boom") (.obj []))) ("L" :: [])
      = _error_response (.num 3) (-32603) "boom"
          :: runLoop s0 (decodeConst (toolCallReq (.num 3) (.str "boom") (.obj []))) []
    ∧ runLoop s0 (decodeConst (resourceReadReq (.num 4) (.str "res://bad"))) ("L" :: [])
      = _error_response (.num 4) (-32603) "rboom"
          :: runLoop s0 (decodeConst (resourceReadReq (.num 4) (.str "res://bad"))) [] :=
  ⟨(handler_raise_gives_internal_error s0
      (decodeConst (toolCallReq (.num 3) (.str "boom") (.obj []))) (.num 3) (.obj [])
      "boom" boomImpl badRes "boom" "L" []).1 rfl rfl rfl (by decide) rfl,
   (handler_raise_gives_internal_error s0
      (decodeConst (resourceReadReq (.num 4) (.str "res://bad"))) (.num 4) .null
      "res://bad" boomImpl badRes "rboom" "L" []).2 rfl rfl rfl (by decide) rfl⟩

/-- C9 counterexample: registering the URI `"a://b://c"` (two separators)
makes `resources/list` report name `"b"`, the segment between the first and
second separator, while the spec's "path portion after `://`" is
`"b://c"`. -/
theorem resource_name_double_separator_counterexample :
    jGet (jIdx (jGet (jGet (_handle_resources_list s9 .null) "result") "resources") 0) "name"
      = .str "b"
    ∧ specResourceName "a://b://c" = "b://c"
    ∧ Json.str "b" ≠ Json.str "b://c" := by
  refine ⟨rfl, rfl, ?_⟩
  intro h
  injection h with h
  exact absurd h (by decide)

/-- C9 amended: each descriptor carries the registered uri, mimeType
`"text/plain"`, and as name the second field of splitting the URI on every
occurrence of `"://"` (the segment between the first and second separator);
when at most one separator occurs this is precisely the portion after the
separator, or the full URI when none occurs. -/
theorem resources_list_descriptors (s : MCPServer) (rid : Json) :
    jGet (jGet (_handle_resources_list s rid) "result") "resources"
      = .arr (s.resources.map (fun kv => resourceDescriptor kv.1))
    ∧ (∀ uri : String, containsSep (afterFirstSep uri.toList) = false →
        resourceName uri = specResourceName uri)
    ∧ (∀ uri : String,
        jGet (resourceDescriptor uri) "uri" = .str uri
        ∧ jGet (resourceDescriptor uri) "name" = .str (resourceName uri)
        ∧ jGet (resourceDescriptor uri) "mimeType" = .str "text/plain") := by
  refine ⟨rfl, ?_, fun uri => ⟨rfl, rfl, rfl⟩⟩
  intro uri h2
  unfold resourceName specResourceName
  by_cases h1 : containsSep uri.toList
  · rw [if_pos h1, if_pos h1, splitSep_second _ h1 h2]
  · rw [if_neg h1, if_neg h1]

/-- Witness for the amended C9 on the fixture server and the repository's
actual URI `"system://status"` (a single separator). -/
theorem resources_list_descriptors_witness :
    jGet (jGet (_handle_resources_list s0 .null) "result") "resources"
      = .arr (s0.resources.map (fun kv => resourceDescriptor kv.1))
    ∧ resourceName "system://status" = specResourceName "system://status" :=
  ⟨(resources_list_descriptors s0 .null).1,
   (resources_list_descriptors s0 .null).2.1 "system://status" rfl⟩

/-- C10: starting from a fresh server, any registration sequence leaves the
descriptor map and the handler map with the same keys; every name passing
the descriptor-map membership check has its most recently registered
handler in the handler map, and `tools/call` on that name invokes exactly
that handler. -/
theorem registration_registries_consistent (nm0 : String) (fs : List PyFunc) :
    dictKeys (registerTools (MCPServer.new nm0) fs).tools
      = dictKeys (registerTools (MCPServer.new nm0) fs).tool_functions
    ∧ ∀ nm : String,
        nm ∈ dictKeys (registerTools (MCPServer.new nm0) fs).tools →
        ∃ f : PyFunc, mostRecent fs nm = some f
          ∧ dictLookup (registerTools (MCPServer.new nm0) fs).tool_functions nm = some f.impl
          ∧ ∀ (args rid : Json),
              _handle_tool_call (registerTools (MCPServer.new nm0) fs)
                  (.obj [("name", .str nm), ("arguments", args)]) rid
                = Except.map (toolCallSuccess rid) (f.impl args) := by
  have hkeys := reg_keys_eq fs (MCPServer.new nm0) rfl
  refine ⟨hkeys, ?_⟩
  intro nm hmem
  have hlk := reg_lookup fs (MCPServer.new nm0) nm
  cases hmr : mostRecent fs nm with
  | none =>
    rw [hmr] at hlk
    have h2 : dictLookup (registerTools (MCPServer.new nm0) fs).tool_functions nm
        = none := hlk
    have h1 : (dictLookup (registerTools (MCPServer.new nm0) fs).tool_functions nm).isSome := by
      rw [dictLookup_isSome_iff, ← hkeys]
      exact hmem
    rw [h2] at h1
    exact absurd h1 (by simp)
  | some f =>
    rw [hmr] at hlk
    have h2 : dictLookup (registerTools (MCPServer.new nm0) fs).tool_functions nm
        = some f.impl := hlk
    exact ⟨f, rfl, h2,
      fun args rid => handle_tool_call_registered _ nm f.impl args rid hmem h2⟩

/-- Witness for C10 with a concrete registration sequence re-registering
`echo`. -/
theorem registration_registries_consistent_witness :
    dictKeys (registerTools (MCPServer.new "S") [echoFunc, boomFunc, echoFunc]).tools
      = dictKeys (registerTools (MCPServer.new "S") [echoFunc, boomFunc, echoFunc]).tool_functions
    ∧ ∃ f : PyFunc, mostRecent [echoFunc, boomFunc, echoFunc] "echo" = some f
        ∧ dictLookup (registerTools (MCPServer.new "S")
            [echoFunc, boomFunc, echoFunc]).tool_functions "echo" = some f.impl
        ∧ ∀ (args rid : Json),
            _handle_tool_call (registerTools (MCPServer.new "S") [echoFunc, boomFunc, echoFunc])
                (.obj [("name", .str "echo"), ("arguments", args)]) rid
              = Except.map (toolCallSuccess rid) (f.impl args) :=
  ⟨(registration_registries_consistent "S" [echoFunc, boomFunc, echoFunc]).1,
   (registration_registries_consistent "S" [echoFunc, boomFunc, echoFunc]).2 "echo"
     (by decide)⟩

/-- Witness for C7 at a concrete two-parameter signature. -/
theorem schema_required_iff_no_default_witness :
    jGet (_get_schema [⟨"a", some (.simple .pint), none⟩,
        ⟨"b", some (.simple .pint), some (.num 0)⟩]) "required"
      = .arr ((([⟨"a", some (.simple .pint), none⟩,
          ⟨"b", some (.simple .pint), some (.num 0)⟩] : List Param).filter
            (fun p => !(p.nm == "self") && p.dflt.isNone)).map (fun p => Json.str p.nm)) :=
  (schema_required_iff_no_default [⟨"a", some (.simple .pint), none⟩,
    ⟨"b", some (.simple .pint), some (.num 0)⟩]).1
